import Mathlib

/-!
Verification of the tigerscope ingest-and-batch-persist pipeline.

Shallow embedding of two Go programs:
 - the writer consumer (`src/services/writer-consumer/main.go`): Kafka
   consumer that buffers `TelemetryEvent`s, flushes them as Parquet
   batches to object storage on a size or time trigger;
 - the ingestion gateway (the HTTP `/ingest` handler): validates and
   normalizes a raw JSON record and publishes it to the log.

Machine integers (Go `int32`/`int64`) are modelled as `Int`; instants
(`time.Time`) as `Int` milliseconds since epoch, with `Option Int`
where the Go code distinguishes the zero value or a parse failure.
-/

namespace Writer

/-- The consumer struct `TelemetryEvent` from writer-consumer/main.go
(lines 24-38): the fields annotated with parquet tags. The Go struct has
no `attributes` field (the source comments it is omitted). -/
structure TelemetryEvent where
  timestamp : Int
  service : String
  customerID : String
  endpoint : String
  method : String
  statusCode : Int
  latencyMs : Int
  traceID : String
  errorMsg : String
  environment : String
  schemaVer : Int
  ingestedAt : Int
  deriving DecidableEq, Repr

/-- The consumer struct `rawEvent` (lines 40-54): the JSON shape decoded
from a Kafka message. `timestamp` and `ingestedAt` are RFC3339 strings in
Go; we embed each as the result of `time.Parse`: `some t` when the string
parses to instant `t`, `none` when it is missing or unparseable. -/
structure RawEvent where
  timestamp : Option Int
  service : String
  customerID : String
  endpoint : String
  method : String
  statusCode : Int
  latencyMs : Int
  traceID : String
  errorMsg : String
  environment : String
  schemaVer : Int
  ingestedAt : Option Int
  attributes : List (String × String)
  deriving DecidableEq, Repr

/-- `parseKafkaJSON` (lines 271-301) after `json.Unmarshal` succeeded:
unparseable `timestamp` or `ingested_at` falls back to the current UTC
instant (`time.Now().UTC()`), and `attributes` is dropped because the
consumer struct has no such field. Never fails. -/
def parseRaw (r : RawEvent) (now : Int) : TelemetryEvent :=
  { timestamp := r.timestamp.getD now
    service := r.service
    customerID := r.customerID
    endpoint := r.endpoint
    method := r.method
    statusCode := r.statusCode
    latencyMs := r.latencyMs
    traceID := r.traceID
    errorMsg := r.errorMsg
    environment := r.environment
    schemaVer := r.schemaVer
    ingestedAt := r.ingestedAt.getD now }

/-- `parseKafkaJSON` (lines 271-301) in full: `none` as input models a
`json.Unmarshal` error (the only failing path in the Go function). -/
def parseKafkaJSON (decoded : Option RawEvent) (now : Int) : Option TelemetryEvent :=
  match decoded with
  | none => none
  | some r => some (parseRaw r now)

/-- The flush-relevant consumer configuration (`Config`, lines 56-69):
`FlushEveryN` and the flush interval, the latter kept in the same abstract
time units as instants. -/
structure Config where
  flushEveryN : Nat
  flushEvery : Int
  deriving DecidableEq, Repr

/-- The mutable state of `WriterHandler` (lines 135-141): the buffered
batch and the time of the last successful flush. -/
structure State where
  events : List TelemetryEvent
  lastFlush : Int
  deriving DecidableEq, Repr

/-- Outcome of one flush attempt: `writeParquet` failing, the object-store
upload failing, or success. -/
inductive FlushOutcome where
  | encodeErr
  | uploadErr
  | ok
  deriving DecidableEq, Repr

/-- Zero-padded decimal of minimum width `w`, as Go `fmt.Sprintf` with
`%0wd` renders a non-negative integer. -/
def padNum (w n : Nat) : String :=
  let s := toString n
  if s.length < w then String.mk (List.replicate (w - s.length) '0') ++ s else s

/-- The object key built by `flush` (lines 209-210):
`telemetry/parquet/date=YYYY-MM-DD/hour=HH/batch-<suffix>.parquet`. -/
def buildKey (y m d h : Nat) (suffix : String) : String :=
  "telemetry/parquet/date=" ++ padNum 4 y ++ "-" ++ padNum 2 m ++ "-" ++ padNum 2 d
    ++ "/hour=" ++ padNum 2 h ++ "/batch-" ++ suffix ++ ".parquet"

/-- Result of one `flush` call: the state on return, the keys of the
objects stored by the call, the rows durably written to the object
store, and whether the call returned nil. -/
structure FlushResult where
  state : State
  uploaded : List String
  written : List TelemetryEvent
  success : Bool
  deriving DecidableEq, Repr

/-- `flush` (lines 203-243). Empty buffer: return nil immediately,
touching nothing. Otherwise build the key from the current UTC date and
hour plus a random suffix; a `writeParquet` error or an upload error
returns before any mutation, so `events` and `lastFlush` are unchanged
and nothing was stored (the object-store put is all-or-nothing). On
success exactly one object is stored, the buffer is cleared and the
flush timer reset. -/
def flush (s : State) (now : Int) (y m d h : Nat) (suffix : String)
    (outcome : FlushOutcome) : FlushResult :=
  if s.events.length = 0 then
    { state := s, uploaded := [], written := [], success := true }
  else
    match outcome with
    | .encodeErr => { state := s, uploaded := [], written := [], success := false }
    | .uploadErr => { state := s, uploaded := [], written := [], success := false }
    | .ok =>
        { state := { events := [], lastFlush := now }
          uploaded := [buildKey y m d h suffix]
          written := s.events
          success := true }

/-- The externally visible actions of one iteration of the `ConsumeClaim`
loop (lines 166-200): appending to the buffer, committing the message
position (`sess.MarkMessage`), attempting a flush. -/
inductive Action where
  | appendEv
  | commit
  | flushAttempt
  deriving DecidableEq, Repr

/-- Result of processing one Kafka message in `ConsumeClaim`. -/
structure StepResult where
  state : State
  trace : List Action
  flushed : Bool
  deriving DecidableEq, Repr

/-- One pass of the `case msg := <-claim.Messages()` branch of
`ConsumeClaim` (lines 168-188): on parse failure commit the position and
continue; on success append the event, commit the position, then flush
if the buffered count reached `FlushEveryN`. `decoded = none` models a
`json.Unmarshal` failure in `parseKafkaJSON`. -/
def messageStep (cfg : Config) (s : State) (decoded : Option RawEvent) (now : Int)
    (y m d h : Nat) (suffix : String) (outcome : FlushOutcome) : StepResult :=
  match parseKafkaJSON decoded now with
  | none => { state := s, trace := [Action.commit], flushed := false }
  | some ev =>
      let s1 : State := { s with events := s.events ++ [ev] }
      if cfg.flushEveryN ≤ s1.events.length then
        let fr := flush s1 now y m d h suffix outcome
        { state := fr.state
          trace := [Action.appendEv, Action.commit, Action.flushAttempt]
          flushed := true }
      else
        { state := s1, trace := [Action.appendEv, Action.commit], flushed := false }

/-- One pass of the `case <-ticker.C` branch of `ConsumeClaim`
(lines 190-195): flush when the time since the last successful flush has
reached the configured interval and the buffer is non-empty. -/
def tickerStep (cfg : Config) (s : State) (now : Int)
    (y m d h : Nat) (suffix : String) (outcome : FlushOutcome) : StepResult :=
  if cfg.flushEvery ≤ now - s.lastFlush ∧ 0 < s.events.length then
    let fr := flush s now y m d h suffix outcome
    { state := fr.state, trace := [Action.flushAttempt], flushed := true }
  else
    { state := s, trace := [], flushed := false }

/-- The accumulator flush condition of spec section 4.4: buffered count at
least N, or buffer non-empty and elapsed time since the last successful
flush at least T. This is the disjunction of the guards of the two
`ConsumeClaim` branches. -/
def shouldFlush (cfg : Config) (s : State) (now : Int) : Bool :=
  decide (cfg.flushEveryN ≤ s.events.length) ||
    (decide (0 < s.events.length) && decide (cfg.flushEvery ≤ now - s.lastFlush))

/-- Run `messageStep` over a list of incoming messages (all flushes
succeeding), returning the final state and the 1-based indices of the
messages whose processing triggered a flush. -/
def runMessages (cfg : Config) (s : State) (msgs : List (Option RawEvent))
    (now : Int) (idx : Nat) : State × List Nat :=
  match msgs with
  | [] => (s, [])
  | msg :: rest =>
      let r := messageStep cfg s msg now 2025 1 1 0 "aabbccddeeff0011" FlushOutcome.ok
      let (sfin, idxs) := runMessages cfg r.state rest now (idx + 1)
      (sfin, (if r.flushed then [idx + 1] else []) ++ idxs)

/-- The persisted row schema of spec section 6, one typed column per
parquet tag of the consumer `TelemetryEvent` struct (lines 24-38):
timestamp and ingested_at as int64 millis, status_code, latency_ms and
schema_version as int32, the rest UTF8 strings. The `error` column is
tagged OPTIONAL in the parquet schema but is backed by a plain Go
string, so every row carries a value. There is no attributes column. -/
structure ParquetRow where
  col_timestamp : Int
  col_service : String
  col_customer_id : String
  col_endpoint : String
  col_method : String
  col_status_code : Int
  col_latency_ms : Int
  col_trace_id : String
  col_error : String
  col_environment : String
  col_schema_version : Int
  col_ingested_at : Int
  deriving DecidableEq, Repr

/-- One row written by `writeParquet` (lines 245-269): each struct field
goes to the column its parquet tag names. -/
def encodeRow (ev : TelemetryEvent) : ParquetRow :=
  { col_timestamp := ev.timestamp
    col_service := ev.service
    col_customer_id := ev.customerID
    col_endpoint := ev.endpoint
    col_method := ev.method
    col_status_code := ev.statusCode
    col_latency_ms := ev.latencyMs
    col_trace_id := ev.traceID
    col_error := ev.errorMsg
    col_environment := ev.environment
    col_schema_version := ev.schemaVer
    col_ingested_at := ev.ingestedAt }

/-- Reading one persisted row back under the section 6 schema, as the
downstream query layer does. -/
def decodeRow (r : ParquetRow) : TelemetryEvent :=
  { timestamp := r.col_timestamp
    service := r.col_service
    customerID := r.col_customer_id
    endpoint := r.col_endpoint
    method := r.col_method
    statusCode := r.col_status_code
    latencyMs := r.col_latency_ms
    traceID := r.col_trace_id
    errorMsg := r.col_error
    environment := r.col_environment
    schemaVer := r.col_schema_version
    ingestedAt := r.col_ingested_at }

/-- `writeParquet` writes the batch row by row, in order. -/
def encodeBatch (batch : List TelemetryEvent) : List ParquetRow :=
  batch.map encodeRow

/-- Reading a persisted object back gives its rows in order. -/
def decodeBatch (rows : List ParquetRow) : List TelemetryEvent :=
  rows.map decodeRow

end Writer

/-- The lowercase hex digit for a value below 16, as `encoding/hex`
emits it: a decimal digit below ten, a letter from `a` onwards above. -/
def hexDigit (n : Nat) : Char :=
  if n < 10 then Char.ofNat (48 + n) else Char.ofNat (87 + n)

/-- A lowercase hex digit character. -/
def isHexChar (c : Char) : Bool :=
  (decide ('0' ≤ c) && decide (c ≤ '9')) || (decide ('a' ≤ c) && decide (c ≤ 'f'))

/-- `hex.EncodeToString` of one byte: high nibble then low nibble. -/
def byteToHex (b : Nat) : List Char :=
  [hexDigit (b / 16), hexDigit (b % 16)]

/-- `randomHex(n)` from both services: read `n` random bytes and
hex-encode them, two characters per byte. We embed it applied to the
bytes the random source returned. -/
def randomHex (bytes : List Nat) : String :=
  String.mk ((bytes.map byteToHex).flatten)

/-- A string made of hex digits only. -/
def isHexStr (s : String) : Bool :=
  s.data.all isHexChar

/-- The whitespace characters Go `unicode.IsSpace` recognizes in the
ASCII range (plus NEL and NBSP), as used by `strings.TrimSpace`. -/
def isSpaceGo (c : Char) : Bool :=
  c = ' ' || c = '\t' || c = '\n' || c = '\u000b' || c = '\u000c' || c = '\r' ||
    c = '\u0085' || c = ' '

/-- Go `strings.TrimSpace`: remove leading and trailing whitespace. -/
def trimSpace (s : String) : String :=
  String.mk (((s.data.dropWhile isSpaceGo).reverse.dropWhile isSpaceGo).reverse)

namespace Gateway

/-- The gateway struct `TelemetryEvent` (ingestion API, lines 18-33):
the raw record schema decoded from the request body. `timestamp` and
`ingested_at` are Go `time.Time`; `none` models the zero value (field
absent or explicit zero), `some t` an instant `t` in UTC millis. -/
structure Event where
  timestamp : Option Int
  service : String
  customerID : String
  endpoint : String
  method : String
  statusCode : Int
  latencyMs : Int
  traceID : String
  errorMsg : String
  attributes : List (String × String)
  requestID : String
  ingestedAt : Option Int
  schemaVer : Int
  environment : String
  deriving DecidableEq, Repr

/-- The JSON field names of the raw record schema: the json tags of the
gateway `TelemetryEvent` struct. -/
def rawRecordKeys : List String :=
  ["timestamp", "service", "customer_id", "endpoint", "method", "status_code",
   "latency_ms", "trace_id", "error", "attributes", "request_id", "ingested_at",
   "schema_version", "environment"]

/-- A request body: the field names appearing in the JSON object and the
decoded values of the known fields. -/
structure Body where
  keys : List String
  payload : Event
  deriving DecidableEq, Repr

/-- `json.Decoder` with `DisallowUnknownFields` (handler lines 67-73):
decoding fails as soon as some field name is outside the raw record
schema; otherwise it yields the payload. -/
def decodeStrict (body : Body) : Option Event :=
  if body.keys.all (fun k => rawRecordKeys.contains k) then some body.payload else none

/-- The required-field check of the handler (lines 86-93): the four
identifying strings must be non-blank after trimming whitespace and
`status_code` must be non-zero. -/
def requiredMissing (ev : Event) : Bool :=
  trimSpace ev.service == "" || trimSpace ev.customerID == "" ||
    trimSpace ev.endpoint == "" || trimSpace ev.method == "" || ev.statusCode == 0

/-- Default filling and server-side overwrites (lines 76-84): `timestamp`
defaults to the current UTC instant and is otherwise normalized to UTC
(same instant); `ingested_at`, `schema_version` and `environment` are
overwritten unconditionally. -/
def normalize (ev : Event) (now : Int) (env : String) : Event :=
  { ev with
    timestamp := some (ev.timestamp.getD now)
    ingestedAt := some now
    schemaVer := 1
    environment := env }

/-- The observable outcome of one `/ingest` request: HTTP status, the
event handed to `SendMessage` if any, and the `trace_id`/`request_id`
of the JSON success response if one was written. -/
structure IngestResult where
  status : Nat
  publishAttempt : Option Event
  respTraceID : Option String
  respRequestID : Option String
  deriving DecidableEq, Repr

/-- The POST `/ingest` handler (lines 59-141). Inputs beyond the body:
the deployment environment, the acceptance instant `now`, the bytes the
random source returns for `trace_id` (16 bytes) and `request_id`
(12 bytes), whether `SendMessage` succeeds, and whether the 3-second
request context expired by the post-publish check. -/
def ingest (env : String) (now : Int) (traceBytes reqBytes : List Nat)
    (pubOk : Bool) (timedOut : Bool) (body : Body) : IngestResult :=
  match decodeStrict body with
  | none => { status := 400, publishAttempt := none, respTraceID := none, respRequestID := none }
  | some ev0 =>
      let ev1 := normalize ev0 now env
      if requiredMissing ev1 then
        { status := 400, publishAttempt := none, respTraceID := none, respRequestID := none }
      else
        let ev2 := { ev1 with
          traceID := if ev1.traceID == "" then randomHex traceBytes else ev1.traceID
          requestID := randomHex reqBytes }
        if !pubOk then
          { status := 502, publishAttempt := some ev2, respTraceID := none, respRequestID := none }
        else if timedOut then
          { status := 504, publishAttempt := some ev2, respTraceID := none, respRequestID := none }
        else
          { status := 202, publishAttempt := some ev2
            respTraceID := some ev2.traceID, respRequestID := some ev2.requestID }

/-- Two payloads that agree on every caller-meaningful field, i.e. may
differ only in the server-controlled `request_id`, `ingested_at`,
`schema_version` and `environment`. -/
def agreeExceptServer (p q : Event) : Prop :=
  p.timestamp = q.timestamp ∧ p.service = q.service ∧ p.customerID = q.customerID ∧
    p.endpoint = q.endpoint ∧ p.method = q.method ∧ p.statusCode = q.statusCode ∧
    p.latencyMs = q.latencyMs ∧ p.traceID = q.traceID ∧ p.errorMsg = q.errorMsg ∧
    p.attributes = q.attributes

/-- The four server-controlled fields of a published event. -/
def serverFields (ev : Event) : Option Int × Int × String × String :=
  (ev.ingestedAt, ev.schemaVer, ev.environment, ev.requestID)

end Gateway

namespace Writer

/-- A representative well-formed raw event, as the gateway publishes it. -/
def sampleRaw : RawEvent :=
  { timestamp := some 1700000000000, service := "auth", customerID := "c1"
    endpoint := "/x", method := "GET", statusCode := 200, latencyMs := 12
    traceID := "t1", errorMsg := "", environment := "local", schemaVer := 1
    ingestedAt := some 1700000000050, attributes := [("region", "us")] }

/-- The default consumer configuration: `FLUSH_EVERY_N = 500`,
`FLUSH_EVERY_SECS = 5` (in millis). -/
def cfg500 : Config :=
  { flushEveryN := 500, flushEvery := 5000 }

/-- The consumer state right after `Setup`. -/
def emptyState : State :=
  { events := [], lastFlush := 0 }

/-- A representative buffered event. -/
def sampleTelemetry : TelemetryEvent :=
  parseRaw sampleRaw 0

/-- A consumer state holding one buffered event. -/
def sampleState : State :=
  { events := [sampleTelemetry], lastFlush := 0 }

/-- A raw event whose timestamp strings failed to parse as RFC3339. -/
def noTsRaw : RawEvent :=
  { sampleRaw with timestamp := none, ingestedAt := none }

end Writer

namespace Gateway

/-- A representative valid decoded payload with a caller-supplied
`trace_id` and caller-forged server fields. -/
def sampleEvent : Event :=
  { timestamp := some 3, service := "auth", customerID := "c1", endpoint := "/x"
    method := "GET", statusCode := 200, latencyMs := 7, traceID := "t1"
    errorMsg := "", attributes := [], requestID := "forged", ingestedAt := some 999
    schemaVer := 42, environment := "forged-env" }

/-- A body carrying `sampleEvent` under known field names. -/
def sampleBody : Body :=
  { keys := ["service", "customer_id", "endpoint", "method", "status_code", "trace_id"]
    payload := sampleEvent }

/-- The same payload with a blank `trace_id`. -/
def blankTraceEvent : Event :=
  { sampleEvent with traceID := "" }

/-- A body carrying `blankTraceEvent`. -/
def blankTraceBody : Body :=
  { keys := ["service", "customer_id", "endpoint", "method", "status_code"]
    payload := blankTraceEvent }

/-- Sixteen concrete bytes for the `trace_id` random draw. -/
def tb16 : List Nat :=
  [0, 1, 2, 3, 4, 5, 6, 7, 8, 9, 10, 11, 12, 13, 14, 255]

/-- Twelve concrete bytes for the `request_id` random draw. -/
def rb12 : List Nat :=
  [16, 17, 18, 19, 20, 21, 22, 23, 24, 25, 26, 27]

/-- The event the handler publishes for `sampleBody` at instant 5 in
environment "local" with `rb12` as the `request_id` draw: every
caller-forged server field has been overwritten. -/
def publishedSample : Event :=
  { sampleEvent with
    ingestedAt := some 5
    schemaVer := 1
    environment := "local"
    requestID := randomHex rb12 }

end Gateway

/-! Helper lemmas about hex encoding. -/

theorem flatten_byteToHex_length (bs : List Nat) :
    ((bs.map byteToHex).flatten).length = 2 * bs.length := by
  induction bs with
  | nil => rfl
  | cons b t ih =>
      simp only [List.map_cons, List.flatten_cons, List.length_append, ih,
        List.length_cons, byteToHex]
      simp
      omega

theorem randomHex_length (bs : List Nat) : (randomHex bs).length = 2 * bs.length := by
  simpa [randomHex, String.length] using flatten_byteToHex_length bs

theorem hexDigit_isHexChar : ∀ n, n < 16 → isHexChar (hexDigit n) = true := by
  decide

theorem isHexStr_randomHex (bs : List Nat) (h : ∀ b ∈ bs, b < 256) :
    isHexStr (randomHex bs) = true := by
  induction bs with
  | nil => rfl
  | cons b t ih =>
      have hb : b < 256 := h b (List.mem_cons_self b t)
      have hdiv : b / 16 < 16 := Nat.div_lt_of_lt_mul (by omega)
      have hmod : b % 16 < 16 := Nat.mod_lt _ (by omega)
      have ht := ih (fun x hx => h x (List.mem_cons_of_mem b hx))
      simp only [isHexStr, randomHex, List.map_cons, List.flatten_cons] at *
      simp only [byteToHex, List.all_append, List.all_cons, List.all_nil,
        hexDigit_isHexChar _ hdiv, hexDigit_isHexChar _ hmod, Bool.and_true,
        true_and, ht]

/-! Theorems settling the claims, one per claim. -/

/-- C3: a flush attempt that fails (encode error or upload error) returns
with the consumer's in-memory state unchanged: the batch keeps exactly
the same events in the same order, nothing is stored, and the flush
timer is not reset; a later successful flush then writes exactly that
same batch whole. -/
theorem c3_failed_flush_retains_batch :
    ∀ (s : Writer.State) (now now2 : Int) (y m d h y2 m2 d2 h2 : Nat)
      (sfx sfx2 : String) (outcome : Writer.FlushOutcome),
      outcome ≠ Writer.FlushOutcome.ok →
      (Writer.flush s now y m d h sfx outcome).state = s ∧
      (Writer.flush s now y m d h sfx outcome).uploaded = [] ∧
      (Writer.flush s now y m d h sfx outcome).written = [] ∧
      (s.events ≠ [] →
        (Writer.flush s now2 y2 m2 d2 h2 sfx2 Writer.FlushOutcome.ok).written = s.events) := by
  intro s now now2 y m d h y2 m2 d2 h2 sfx sfx2 oc hoc
  have hlast : s.events ≠ [] →
      (Writer.flush s now2 y2 m2 d2 h2 sfx2 Writer.FlushOutcome.ok).written = s.events := by
    intro hne
    have hlen : s.events.length ≠ 0 := by
      simpa [List.length_eq_zero] using hne
    simp [Writer.flush, hlen]
  cases oc with
  | ok => exact absurd rfl hoc
  | encodeErr =>
      by_cases hlen : s.events.length = 0
      · have hnil := List.length_eq_zero.mp hlen
        simp [Writer.flush, hlen, hnil]
      · simp [Writer.flush, hlen, hlast]
  | uploadErr =>
      by_cases hlen : s.events.length = 0
      · have hnil := List.length_eq_zero.mp hlen
        simp [Writer.flush, hlen, hnil]
      · simp [Writer.flush, hlen, hlast]

/-- Witness for C3 at a concrete one-event state and a failing upload. -/
theorem c3_failed_flush_retains_batch_witness :
    (Writer.FlushOutcome.uploadErr ≠ Writer.FlushOutcome.ok) ∧
    (Writer.sampleState.events ≠ []) ∧
    (Writer.flush Writer.sampleState 9 2025 10 7 4 "ab" Writer.FlushOutcome.uploadErr).state
      = Writer.sampleState ∧
    (Writer.flush Writer.sampleState 11 2025 10 7 5 "cd" Writer.FlushOutcome.ok).written
      = Writer.sampleState.events := by
  refine ⟨by decide, by decide, ?_, ?_⟩
  · exact (c3_failed_flush_retains_batch Writer.sampleState 9 11 2025 10 7 4 2025 10 7 5
      "ab" "cd" Writer.FlushOutcome.uploadErr (by decide)).1
  · exact (c3_failed_flush_retains_batch Writer.sampleState 9 11 2025 10 7 4 2025 10 7 5
      "ab" "cd" Writer.FlushOutcome.uploadErr (by decide)).2.2.2 (by decide)

/-- C9: a successful flush of a non-empty buffer stores exactly one
object, under the key
`telemetry/parquet/date=YYYY-MM-DD/hour=HH/batch-<suffix>.parquet`
built from the current UTC date and hour and the random suffix; two
flushes drawing distinct random suffixes in the same hour partition get
distinct keys, so fresh suffixes mean keys are never reused. -/
theorem c9_flush_key_convention :
    (∀ (s : Writer.State) (now : Int) (y m d h : Nat) (sfx : String),
       s.events ≠ [] →
       (Writer.flush s now y m d h sfx Writer.FlushOutcome.ok).uploaded
         = [Writer.buildKey y m d h sfx]) ∧
    (∀ (y m d h : Nat) (s1 s2 : String),
       Writer.buildKey y m d h s1 = Writer.buildKey y m d h s2 → s1 = s2) ∧
    Writer.buildKey 2025 10 7 4 "00deadbeef001122"
      = "telemetry/parquet/date=2025-10-07/hour=04/batch-00deadbeef001122.parquet" := by
  refine ⟨?_, ?_, by decide⟩
  · intro s now y m d h sfx hne
    have hlen : s.events.length ≠ 0 := by
      simpa [List.length_eq_zero] using hne
    simp [Writer.flush, hlen]
  · intro y m d h s1 s2 hEq
    have hd := congrArg String.data hEq
    simp only [Writer.buildKey, String.data_append, List.append_assoc] at hd
    iterate 9 replace hd := List.append_cancel_left hd
    exact String.ext (List.append_cancel_right hd)

/-- Witness for C9: the flush of a concrete one-event state uploads the
single convention key, and suffix injectivity applied concretely. -/
theorem c9_flush_key_convention_witness :
    (Writer.sampleState.events ≠ []) ∧
    (Writer.flush Writer.sampleState 9 2025 10 7 4 "aa" Writer.FlushOutcome.ok).uploaded
      = [Writer.buildKey 2025 10 7 4 "aa"] ∧
    ("aa" : String) = "aa" := by
  refine ⟨by decide, ?_, ?_⟩
  · exact c9_flush_key_convention.1 Writer.sampleState 9 2025 10 7 4 "aa" (by decide)
  · exact c9_flush_key_convention.2.1 2025 10 7 4 "aa" "aa" (by decide)

/-- C10: a Kafka message is a parse failure only when `json.Unmarshal`
fails on its bytes; a message whose `timestamp` or `ingested_at` string
is missing or not RFC3339 still parses, the unparseable instant being
replaced with the consumer's current UTC time, and the event is appended
to the buffer and committed like any other. -/
theorem c10_parse_failure_only_bad_json :
    (∀ (r : Writer.RawEvent) (now : Int),
       Writer.parseKafkaJSON (some r) now = some (Writer.parseRaw r now)) ∧
    (∀ now : Int, Writer.parseKafkaJSON none now = none) ∧
    (∀ (r : Writer.RawEvent) (now : Int), r.timestamp = none →
       (Writer.parseRaw r now).timestamp = now) ∧
    (∀ (r : Writer.RawEvent) (now : Int), r.ingestedAt = none →
       (Writer.parseRaw r now).ingestedAt = now) ∧
    (∀ (cfg : Writer.Config) (s : Writer.State) (r : Writer.RawEvent) (now : Int)
       (y m d h : Nat) (sfx : String) (oc : Writer.FlushOutcome),
       (Writer.messageStep cfg s (some r) now y m d h sfx oc).flushed = false →
       (Writer.messageStep cfg s (some r) now y m d h sfx oc).state.events
         = s.events ++ [Writer.parseRaw r now]) := by
  refine ⟨fun r now => rfl, fun now => rfl, ?_, ?_, ?_⟩
  · intro r now hr
    simp [Writer.parseRaw, hr]
  · intro r now hr
    simp [Writer.parseRaw, hr]
  · intro cfg s r now y m d h sfx oc hf
    by_cases hc : cfg.flushEveryN ≤ s.events.length + 1
    · exfalso
      simp [Writer.messageStep, Writer.parseKafkaJSON, hc] at hf
    · simp [Writer.messageStep, Writer.parseKafkaJSON, hc]

/-- Witness for C10: a concrete message with unparseable timestamps is
buffered with both instants replaced by the consumer clock. -/
theorem c10_parse_failure_only_bad_json_witness :
    (Writer.noTsRaw.timestamp = none) ∧
    (Writer.noTsRaw.ingestedAt = none) ∧
    ((Writer.messageStep Writer.cfg500 Writer.emptyState (some Writer.noTsRaw) 77
        2025 10 7 4 "aa" Writer.FlushOutcome.ok).flushed = false) ∧
    (Writer.parseRaw Writer.noTsRaw 77).timestamp = 77 ∧
    (Writer.parseRaw Writer.noTsRaw 77).ingestedAt = 77 ∧
    (Writer.messageStep Writer.cfg500 Writer.emptyState (some Writer.noTsRaw) 77
        2025 10 7 4 "aa" Writer.FlushOutcome.ok).state.events
      = Writer.emptyState.events ++ [Writer.parseRaw Writer.noTsRaw 77] := by
  refine ⟨by decide, by decide, by decide, ?_, ?_, ?_⟩
  · exact c10_parse_failure_only_bad_json.2.2.1 Writer.noTsRaw 77 (by decide)
  · exact c10_parse_failure_only_bad_json.2.2.2.1 Writer.noTsRaw 77 (by decide)
  · exact c10_parse_failure_only_bad_json.2.2.2.2 Writer.cfg500 Writer.emptyState
      Writer.noTsRaw 77 2025 10 7 4 "aa" Writer.FlushOutcome.ok (by decide)

/-- C2: every received message has its position committed in the same
processing step, before any persistence: a message that fails to parse
is discarded with its position still committed and the state untouched;
a parsed message is appended and committed immediately; and in every
trace the commit precedes any flush attempt, whatever the flush outcome,
so committing never depends on a flush or upload having happened. -/
theorem c2_commit_before_persist :
    ∀ (cfg : Writer.Config) (s : Writer.State) (now : Int) (y m d h : Nat)
      (sfx : String) (oc : Writer.FlushOutcome),
      (Writer.messageStep cfg s none now y m d h sfx oc)
        = { state := s, trace := [Writer.Action.commit], flushed := false } ∧
      (∀ r, (Writer.messageStep cfg s (some r) now y m d h sfx oc).trace.take 2
          = [Writer.Action.appendEv, Writer.Action.commit]) ∧
      (∀ decoded, ∃ pre post,
        (Writer.messageStep cfg s decoded now y m d h sfx oc).trace
          = pre ++ Writer.Action.commit :: post ∧
        Writer.Action.flushAttempt ∉ pre) := by
  intro cfg s now y m d h sfx oc
  refine ⟨rfl, ?_, ?_⟩
  · intro r
    by_cases hc : cfg.flushEveryN ≤ s.events.length + 1 <;>
      simp [Writer.messageStep, Writer.parseKafkaJSON, hc]
  · intro decoded
    cases decoded with
    | none => exact ⟨[], [], rfl, by decide⟩
    | some r =>
        by_cases hc : cfg.flushEveryN ≤ s.events.length + 1
        · refine ⟨[Writer.Action.appendEv], [Writer.Action.flushAttempt], ?_, by decide⟩
          simp [Writer.messageStep, Writer.parseKafkaJSON, hc]
        · refine ⟨[Writer.Action.appendEv], [], ?_, by decide⟩
          simp [Writer.messageStep, Writer.parseKafkaJSON, hc]

/-- C8: encoding a batch to the persisted columnar rows and decoding the
rows back under the section 6 schema reproduces every field of every
event exactly; the `attributes` map of the raw record is dropped before
the row is built (the row type has no attributes column), so two raw
events differing only in `attributes` persist identically. -/
theorem c8_round_trip_drops_attributes :
    (∀ batch : List Writer.TelemetryEvent,
       Writer.decodeBatch (Writer.encodeBatch batch) = batch) ∧
    (∀ (r : Writer.RawEvent) (now : Int) (attrs : List (String × String)),
       Writer.encodeRow (Writer.parseRaw { r with attributes := attrs } now)
         = Writer.encodeRow (Writer.parseRaw r now)) := by
  constructor
  · intro batch
    unfold Writer.decodeBatch Writer.encodeBatch
    rw [List.map_map]
    have hid : Writer.decodeRow ∘ Writer.encodeRow = id := by
      funext ev
      cases ev
      rfl
    rw [hid, List.map_id]
  · intro r now attrs
    rfl

set_option maxRecDepth 100000 in
/-- C1: in the consumer loop a flush is triggered exactly when the
buffered count has reached `FlushEveryN` (message branch) or the buffer
is non-empty and the time since the last successful flush has reached
the configured interval (ticker branch); feeding 501 events with N = 500
into an empty consumer triggers exactly one size flush, after the 500th
event and not after the 501st; and immediately after a successful flush
the flush condition is false. -/
theorem c1_flush_trigger_condition :
    (∀ (cfg : Writer.Config) (s : Writer.State) (r : Writer.RawEvent) (now : Int)
       (y m d h : Nat) (sfx : String) (oc : Writer.FlushOutcome),
       (Writer.messageStep cfg s (some r) now y m d h sfx oc).flushed = true
         ↔ cfg.flushEveryN ≤ s.events.length + 1) ∧
    (∀ (cfg : Writer.Config) (s : Writer.State) (now : Int) (y m d h : Nat)
       (sfx : String) (oc : Writer.FlushOutcome),
       (Writer.tickerStep cfg s now y m d h sfx oc).flushed = true
         ↔ (cfg.flushEvery ≤ now - s.lastFlush ∧ 0 < s.events.length)) ∧
    ((Writer.runMessages Writer.cfg500 Writer.emptyState
        (List.replicate 501 (some Writer.sampleRaw)) 0 0).2 = [500]) ∧
    (∀ (cfg : Writer.Config) (s : Writer.State) (now : Int) (y m d h : Nat)
       (sfx : String), 1 ≤ cfg.flushEveryN →
       Writer.shouldFlush cfg
         (Writer.flush s now y m d h sfx Writer.FlushOutcome.ok).state now = false) := by
  refine ⟨?_, ?_, by decide, ?_⟩
  · intro cfg s r now y m d h sfx oc
    by_cases hc : cfg.flushEveryN ≤ s.events.length + 1 <;>
      simp [Writer.messageStep, Writer.parseKafkaJSON, hc]
  · intro cfg s now y m d h sfx oc
    by_cases hc : cfg.flushEvery ≤ now - s.lastFlush ∧ 0 < s.events.length <;>
      simp [Writer.tickerStep, hc]
  · intro cfg s now y m d h sfx hN
    by_cases hlen : s.events.length = 0
    · have hnil := List.length_eq_zero.mp hlen
      simp [Writer.flush, hlen, Writer.shouldFlush, hnil]
      omega
    · simp [Writer.flush, hlen, Writer.shouldFlush]
      omega

/-- Witness for C1 at the default configuration: after a successful
flush of a concrete one-event state the flush condition is false. -/
theorem c1_flush_trigger_condition_witness :
    1 ≤ Writer.cfg500.flushEveryN ∧
    Writer.shouldFlush Writer.cfg500
      (Writer.flush Writer.sampleState 9 2025 10 7 4 "ab" Writer.FlushOutcome.ok).state 9
      = false :=
  ⟨by decide,
   c1_flush_trigger_condition.2.2.2 Writer.cfg500 Writer.sampleState 9 2025 10 7 4 "ab"
     (by decide)⟩

/-- C4: a decoded payload with `service`, `customer_id`, `endpoint` or
`method` blank after trimming whitespace, or `status_code` zero, gets
HTTP 400 and nothing is handed to the producer; a payload with all four
strings non-blank after trimming and a non-zero status code passes the
required-field check and is never rejected with 400. -/
theorem c4_required_field_check :
    ∀ (env : String) (now : Int) (tb rb : List Nat) (pubOk timedOut : Bool)
      (body : Gateway.Body) (ev : Gateway.Event),
      Gateway.decodeStrict body = some ev →
      ((trimSpace ev.service = "" ∨ trimSpace ev.customerID = "" ∨
        trimSpace ev.endpoint = "" ∨ trimSpace ev.method = "" ∨ ev.statusCode = 0) →
         (Gateway.ingest env now tb rb pubOk timedOut body).status = 400 ∧
         (Gateway.ingest env now tb rb pubOk timedOut body).publishAttempt = none) ∧
      ((trimSpace ev.service ≠ "" ∧ trimSpace ev.customerID ≠ "" ∧
        trimSpace ev.endpoint ≠ "" ∧ trimSpace ev.method ≠ "" ∧ ev.statusCode ≠ 0) →
         Gateway.requiredMissing (Gateway.normalize ev now env) = false ∧
         (Gateway.ingest env now tb rb pubOk timedOut body).status ≠ 400) := by
  intro env now tb rb pubOk timedOut body ev hdec
  constructor
  · intro hbad
    have hmiss : Gateway.requiredMissing (Gateway.normalize ev now env) = true := by
      simp only [Gateway.requiredMissing, Gateway.normalize, Bool.or_eq_true, beq_iff_eq]
      rcases hbad with h | h | h | h | h <;> simp [h]
    simp [Gateway.ingest, hdec, hmiss]
  · rintro ⟨h1, h2, h3, h4, h5⟩
    have hmiss : Gateway.requiredMissing (Gateway.normalize ev now env) = false := by
      simp only [Gateway.requiredMissing, Gateway.normalize, Bool.or_eq_false_iff,
        beq_eq_false_iff_ne, ne_eq]
      exact ⟨⟨⟨⟨h1, h2⟩, h3⟩, h4⟩, h5⟩
    refine ⟨hmiss, ?_⟩
    cases pubOk <;> cases timedOut <;> simp [Gateway.ingest, hdec, hmiss]

/-- Witness for C4: a concrete payload with a blank service is rejected
with 400 and no publish, and the sample payload passes the check. -/
theorem c4_required_field_check_witness :
    (Gateway.decodeStrict (Gateway.Body.mk ["service"]
        { Gateway.sampleEvent with service := "  " })
      = some { Gateway.sampleEvent with service := "  " }) ∧
    (trimSpace ({ Gateway.sampleEvent with service := "  " } : Gateway.Event).service = "") ∧
    (Gateway.ingest "local" 5 Gateway.tb16 Gateway.rb12 true false
        (Gateway.Body.mk ["service"] { Gateway.sampleEvent with service := "  " })).status
      = 400 ∧
    (Gateway.ingest "local" 5 Gateway.tb16 Gateway.rb12 true false
        (Gateway.Body.mk ["service"] { Gateway.sampleEvent with service := "  " })).publishAttempt
      = none := by
  refine ⟨by decide, by decide, ?_⟩
  exact (c4_required_field_check "local" 5 Gateway.tb16 Gateway.rb12 true false
    (Gateway.Body.mk ["service"] { Gateway.sampleEvent with service := "  " })
    { Gateway.sampleEvent with service := "  " } (by decide)).1 (Or.inl (by decide))

/-- C5: a request body containing any field name outside the raw record
schema is rejected with HTTP 400 (strict decoding fails rather than
silently dropping the field) and nothing is handed to the producer. -/
theorem c5_unknown_field_rejected :
    ∀ (env : String) (now : Int) (tb rb : List Nat) (pubOk timedOut : Bool)
      (body : Gateway.Body) (k : String),
      k ∈ body.keys → k ∉ Gateway.rawRecordKeys →
      (Gateway.ingest env now tb rb pubOk timedOut body).status = 400 ∧
      (Gateway.ingest env now tb rb pubOk timedOut body).publishAttempt = none := by
  intro env now tb rb pubOk timedOut body k hk hnot
  have hdec : Gateway.decodeStrict body = none := by
    unfold Gateway.decodeStrict
    have hall : ¬(body.keys.all (fun k => Gateway.rawRecordKeys.contains k) = true) := by
      intro hall
      exact hnot (List.mem_of_elem_eq_true (List.all_eq_true.mp hall k hk))
    rw [if_neg hall]
  simp [Gateway.ingest, hdec]

/-- Witness for C5: a body with the extra field "foo" is rejected. -/
theorem c5_unknown_field_rejected_witness :
    (("foo" : String) ∈ ["service", "foo"]) ∧
    (("foo" : String) ∉ Gateway.rawRecordKeys) ∧
    (Gateway.ingest "local" 5 Gateway.tb16 Gateway.rb12 true false
        (Gateway.Body.mk ["service", "foo"] Gateway.sampleEvent)).status = 400 ∧
    (Gateway.ingest "local" 5 Gateway.tb16 Gateway.rb12 true false
        (Gateway.Body.mk ["service", "foo"] Gateway.sampleEvent)).publishAttempt = none := by
  refine ⟨by decide, by decide, ?_⟩
  exact c5_unknown_field_rejected "local" 5 Gateway.tb16 Gateway.rb12 true false
    (Gateway.Body.mk ["service", "foo"] Gateway.sampleEvent) "foo" (by decide) (by decide)

/-- C6: whenever the handler hands an event to the producer, its
`ingested_at`, `schema_version`, `environment` and `request_id` are the
server-controlled values (the acceptance instant, 1, the deployment
environment, the fresh request-id draw) whatever the caller supplied;
hence two payloads differing only in caller values for those four
fields publish events with identical values for them. -/
theorem c6_server_controlled_fields :
    (∀ (env : String) (now : Int) (tb rb : List Nat) (pubOk timedOut : Bool)
       (body : Gateway.Body) (ev : Gateway.Event),
       (Gateway.ingest env now tb rb pubOk timedOut body).publishAttempt = some ev →
       ev.ingestedAt = some now ∧ ev.schemaVer = 1 ∧ ev.environment = env ∧
       ev.requestID = randomHex rb) ∧
    (∀ (env : String) (now : Int) (tb rb : List Nat) (pubOk timedOut : Bool)
       (b1 b2 : Gateway.Body) (e1 e2 : Gateway.Event),
       Gateway.agreeExceptServer b1.payload b2.payload →
       (Gateway.ingest env now tb rb pubOk timedOut b1).publishAttempt = some e1 →
       (Gateway.ingest env now tb rb pubOk timedOut b2).publishAttempt = some e2 →
       Gateway.serverFields e1 = Gateway.serverFields e2) := by
  have main : ∀ (env : String) (now : Int) (tb rb : List Nat) (pubOk timedOut : Bool)
      (body : Gateway.Body) (ev : Gateway.Event),
      (Gateway.ingest env now tb rb pubOk timedOut body).publishAttempt = some ev →
      ev.ingestedAt = some now ∧ ev.schemaVer = 1 ∧ ev.environment = env ∧
      ev.requestID = randomHex rb := by
    intro env now tb rb pubOk timedOut body ev hpub
    cases hdec : Gateway.decodeStrict body with
    | none => simp [Gateway.ingest, hdec] at hpub
    | some ev0 =>
        by_cases hmiss : Gateway.requiredMissing (Gateway.normalize ev0 now env) = true
        · simp [Gateway.ingest, hdec, hmiss] at hpub
        · cases pubOk <;> cases timedOut <;>
            simp [Gateway.ingest, hdec, hmiss] at hpub <;>
            (rw [← hpub]; exact ⟨rfl, rfl, rfl, rfl⟩)
  refine ⟨main, ?_⟩
  intro env now tb rb pubOk timedOut b1 b2 e1 e2 _hagree h1 h2
  obtain ⟨i1, s1, v1, r1⟩ := main env now tb rb pubOk timedOut b1 e1 h1
  obtain ⟨i2, s2, v2, r2⟩ := main env now tb rb pubOk timedOut b2 e2 h2
  simp [Gateway.serverFields, i1, s1, v1, r1, i2, s2, v2, r2]

/-- Witness for C6: the concrete sample body with forged server fields
publishes an event whose four server fields are the server values. -/
theorem c6_server_controlled_fields_witness :
    ((Gateway.ingest "local" 5 Gateway.tb16 Gateway.rb12 true false
        Gateway.sampleBody).publishAttempt = some Gateway.publishedSample) ∧
    (Gateway.publishedSample.ingestedAt = some 5 ∧
     Gateway.publishedSample.schemaVer = 1 ∧
     Gateway.publishedSample.environment = "local" ∧
     Gateway.publishedSample.requestID = randomHex Gateway.rb12) := by
  refine ⟨by decide, ?_⟩
  exact c6_server_controlled_fields.1 "local" 5 Gateway.tb16 Gateway.rb12 true false
    Gateway.sampleBody Gateway.publishedSample (by decide)

/-- C7: for an accepted payload with a blank (empty) `trace_id` the
handler generates a fresh 128-bit (16-byte) hex identifier, so the 202
response carries a 32-hex-character `trace_id` and a 24-hex-character
`request_id`; a non-blank caller `trace_id` is published unchanged. -/
theorem c7_trace_id_generation :
    (∀ (env : String) (now : Int) (tb rb : List Nat) (body : Gateway.Body)
       (ev : Gateway.Event),
       Gateway.decodeStrict body = some ev → ev.traceID = "" →
       Gateway.requiredMissing (Gateway.normalize ev now env) = false →
       tb.length = 16 → (∀ b ∈ tb, b < 256) →
       rb.length = 12 → (∀ b ∈ rb, b < 256) →
       (Gateway.ingest env now tb rb true false body).status = 202 ∧
       (Gateway.ingest env now tb rb true false body).respTraceID
         = some (randomHex tb) ∧
       (randomHex tb).length = 32 ∧ isHexStr (randomHex tb) = true ∧
       (Gateway.ingest env now tb rb true false body).respRequestID
         = some (randomHex rb) ∧
       (randomHex rb).length = 24 ∧ isHexStr (randomHex rb) = true) ∧
    (∀ (env : String) (now : Int) (tb rb : List Nat) (pubOk timedOut : Bool)
       (body : Gateway.Body) (ev ev2 : Gateway.Event),
       Gateway.decodeStrict body = some ev → ev.traceID ≠ "" →
       (Gateway.ingest env now tb rb pubOk timedOut body).publishAttempt = some ev2 →
       ev2.traceID = ev.traceID) := by
  constructor
  · intro env now tb rb body ev hdec htr hmiss htb hbt hrb hbr
    have hlen16 : (randomHex tb).length = 32 := by
      rw [randomHex_length, htb]
    have hlen12 : (randomHex rb).length = 24 := by
      rw [randomHex_length, hrb]
    have htrb : (Gateway.normalize ev now env).traceID = "" := htr
    refine ⟨?_, ?_, hlen16, isHexStr_randomHex tb hbt, ?_, hlen12,
      isHexStr_randomHex rb hbr⟩ <;>
      simp [Gateway.ingest, hdec, hmiss, htrb]
  · intro env now tb rb pubOk timedOut body ev ev2 hdec htr hpub
    have htrb : (Gateway.normalize ev now env).traceID = ev.traceID := rfl
    by_cases hmiss : Gateway.requiredMissing (Gateway.normalize ev now env) = true
    · simp [Gateway.ingest, hdec, hmiss] at hpub
    · cases pubOk <;> cases timedOut <;>
        simp [Gateway.ingest, hdec, hmiss, htr] at hpub <;>
        simp [← hpub, htrb, htr]

/-- Witness for C7: the concrete blank-trace body at 16 and 12 concrete
random bytes gets a 202 with generated identifiers of the right shape. -/
theorem c7_trace_id_generation_witness :
    (Gateway.decodeStrict Gateway.blankTraceBody = some Gateway.blankTraceEvent ∧
     Gateway.blankTraceEvent.traceID = "" ∧
     Gateway.requiredMissing (Gateway.normalize Gateway.blankTraceEvent 5 "local") = false ∧
     Gateway.tb16.length = 16 ∧ Gateway.rb12.length = 12) ∧
    ((Gateway.ingest "local" 5 Gateway.tb16 Gateway.rb12 true false
        Gateway.blankTraceBody).status = 202 ∧
     (Gateway.ingest "local" 5 Gateway.tb16 Gateway.rb12 true false
        Gateway.blankTraceBody).respTraceID = some (randomHex Gateway.tb16) ∧
     (randomHex Gateway.tb16).length = 32 ∧ isHexStr (randomHex Gateway.tb16) = true ∧
     (Gateway.ingest "local" 5 Gateway.tb16 Gateway.rb12 true false
        Gateway.blankTraceBody).respRequestID = some (randomHex Gateway.rb12) ∧
     (randomHex Gateway.rb12).length = 24 ∧ isHexStr (randomHex Gateway.rb12) = true) := by
  refine ⟨⟨by decide, by decide, by decide, by decide, by decide⟩, ?_⟩
  exact c7_trace_id_generation.1 "local" 5 Gateway.tb16 Gateway.rb12
    Gateway.blankTraceBody Gateway.blankTraceEvent (by decide) (by decide) (by decide)
    (by decide) (by decide) (by decide) (by decide)
